import Mathlib

/-!
Verification development for the sqlboiler schema-introspection engine
(packages `core` and `db/drivers`, MySQL dialect).

The Go source is shallowly embedded: pure functions become Lean functions,
effectful code becomes explicit state passing over oracle inputs standing
for the outcomes of external calls (the SQL connection, the file system).
-/

set_option autoImplicit false

namespace SqlBoiler

/-- A normalized column as in the `db` package: name, full parameterized
dialect type (`tinyint(1)`), bare dialect type (`tinyint`), the assigned
semantic Go type (`TypeName`) with its package qualifier (`PkgName`),
default-value expression, and the nullable/unsigned/unique flags.
Field defaults mirror Go zero values for the fields the driver fills in
only later. -/
structure Column where
  Name : String
  FullDBType : String
  DBType : String
  TypeName : String := ""
  PkgName : String := ""
  Default : String := ""
  Nullable : Bool
  Unsigned : Bool
  Unique : Bool
  deriving Repr, DecidableEq

/-- A primary key: constraint name and the ordered column-name sequence. -/
structure PrimaryKey where
  Name : String
  Columns : List String
  deriving Repr, DecidableEq

/-- A single-column foreign-key relationship, name-based. -/
structure ForeignKey where
  Name : String
  Table : String
  Column : String
  ForeignTable : String
  ForeignColumn : String
  deriving Repr, DecidableEq

/-- A table of the canonical model: ordered columns, optional primary key
(`PKey = none` when the table has no primary key), owned foreign keys, and
the derived join-table flag. -/
structure Table where
  Name : String
  Columns : List Column
  PKey : Option PrimaryKey
  FKeys : List ForeignKey
  IsJoinTable : Bool
  deriving Repr, DecidableEq

/-- The nullable-wrapper package used by the MySQL translator. -/
def nullPkg : String := "gopkg.in/nullbio/null.v6"

/-- The JSON semantic-type package used by the MySQL translator. -/
def typesPkg : String := "github.com/vattle/sqlboiler/types"

/-- Embedding of `(*MySQLDriver).TranslateColumnType` from
`db/drivers/mysql.go`. The Go global `TinyintAsBool` is threaded as the
explicit first argument (one value per run); the two Go `switch` blocks
over `c.DBType` (nullable / non-nullable) become chains of equality tests,
each branch updating only `TypeName` and `PkgName` exactly as the source
does. -/
def TranslateColumnType (tinyintAsBool : Bool) (c : Column) : Column :=
  if c.Nullable then
    if c.DBType = "tinyint" then
      -- map tinyint(1) to bool if TinyintAsBool is true
      if tinyintAsBool ∧ c.FullDBType = "tinyint(1)" then
        { c with PkgName := nullPkg, TypeName := "Bool" }
      else if c.Unsigned then
        { c with PkgName := nullPkg, TypeName := "Uint8" }
      else
        { c with PkgName := nullPkg, TypeName := "Int8" }
    else if c.DBType = "smallint" then
      if c.Unsigned then { c with PkgName := nullPkg, TypeName := "Uint16" }
      else { c with PkgName := nullPkg, TypeName := "Int16" }
    else if c.DBType = "mediumint" then
      if c.Unsigned then { c with PkgName := nullPkg, TypeName := "Uint32" }
      else { c with PkgName := nullPkg, TypeName := "Int32" }
    else if c.DBType = "int" ∨ c.DBType = "integer" then
      if c.Unsigned then { c with PkgName := nullPkg, TypeName := "Uint" }
      else { c with PkgName := nullPkg, TypeName := "Int" }
    else if c.DBType = "bigint" then
      if c.Unsigned then { c with PkgName := nullPkg, TypeName := "Uint64" }
      else { c with PkgName := nullPkg, TypeName := "Int64" }
    else if c.DBType = "float" then
      { c with PkgName := nullPkg, TypeName := "Float32" }
    else if c.DBType = "double" ∨ c.DBType = "double precision" ∨ c.DBType = "real" then
      { c with PkgName := nullPkg, TypeName := "Float64" }
    else if c.DBType = "boolean" ∨ c.DBType = "bool" then
      { c with PkgName := nullPkg, TypeName := "Bool" }
    else if c.DBType = "date" ∨ c.DBType = "datetime" ∨ c.DBType = "timestamp" ∨ c.DBType = "time" then
      { c with PkgName := nullPkg, TypeName := "Time" }
    else if c.DBType = "binary" ∨ c.DBType = "varbinary" ∨ c.DBType = "tinyblob" ∨
            c.DBType = "blob" ∨ c.DBType = "mediumblob" ∨ c.DBType = "longblob" then
      { c with PkgName := nullPkg, TypeName := "Bytes" }
    else if c.DBType = "json" then
      { c with PkgName := typesPkg, TypeName := "JSON" }
    else
      { c with PkgName := nullPkg, TypeName := "String" }
  else
    if c.DBType = "tinyint" then
      -- map tinyint(1) to bool if TinyintAsBool is true
      if tinyintAsBool ∧ c.FullDBType = "tinyint(1)" then
        { c with TypeName := "bool" }
      else if c.Unsigned then
        { c with TypeName := "uint8" }
      else
        { c with TypeName := "int8" }
    else if c.DBType = "smallint" then
      if c.Unsigned then { c with TypeName := "uint16" } else { c with TypeName := "int16" }
    else if c.DBType = "mediumint" then
      if c.Unsigned then { c with TypeName := "uint32" } else { c with TypeName := "int32" }
    else if c.DBType = "int" ∨ c.DBType = "integer" then
      if c.Unsigned then { c with TypeName := "uint" } else { c with TypeName := "int" }
    else if c.DBType = "bigint" then
      if c.Unsigned then { c with TypeName := "uint64" } else { c with TypeName := "int64" }
    else if c.DBType = "float" then
      { c with TypeName := "float32" }
    else if c.DBType = "double" ∨ c.DBType = "double precision" ∨ c.DBType = "real" then
      { c with TypeName := "float64" }
    else if c.DBType = "boolean" ∨ c.DBType = "bool" then
      { c with TypeName := "bool" }
    else if c.DBType = "date" ∨ c.DBType = "datetime" ∨ c.DBType = "timestamp" ∨ c.DBType = "time" then
      { c with PkgName := "time", TypeName := "Time" }
    else if c.DBType = "binary" ∨ c.DBType = "varbinary" ∨ c.DBType = "tinyblob" ∨
            c.DBType = "blob" ∨ c.DBType = "mediumblob" ∨ c.DBType = "longblob" then
      { c with TypeName := "[]byte" }
    else if c.DBType = "json" then
      { c with TypeName := "JSON" }
    else
      { c with TypeName := "string" }

/-- The bare dialect type names the translator's `switch` blocks recognize;
everything outside this list falls through to the `default` branch. -/
def recognizedDBTypes : List String :=
  ["tinyint", "smallint", "mediumint", "int", "integer", "bigint",
   "float", "double", "double precision", "real",
   "boolean", "bool",
   "date", "datetime", "timestamp", "time",
   "binary", "varbinary", "tinyblob", "blob", "mediumblob", "longblob",
   "json"]

/-- Errors of the run, distinguished by the construction site of the Go
error (the Go code distinguishes them only by message; `errMessage` below
reproduces the messages). `connectionError` and `queryError` carry the
wrapped underlying message. `validationError` carries the accumulated list
of table names missing a primary key. -/
inductive Err where
  | connectionError : String → Err
  | queryError : String → Err
  | schemaError : Err
  | validationError : List String → Err
  deriving Repr, DecidableEq

/-- The exact Go error strings: `errors.Wrap` renders as `"msg: cause"`,
`checkPKeys` uses `errors.Errorf("primary key missing in tables (%s)", ...)`
with a comma-space join, and `initTables` uses
`errors.New("no tables found in database")`. -/
def errMessage : Err → String
  | .connectionError e => "unable to connect to the database: " ++ e
  | .queryError e => "unable to fetch table data: " ++ e
  | .schemaError => "no tables found in database"
  | .validationError names =>
      "primary key missing in tables (" ++ String.intercalate ", " names ++ ")"

/-- The accumulation loop of `checkPKeys` (`core/boilingcore.go`): walk the
tables in order and append the name of every table whose `PKey` is nil. -/
def missingPkeyTables (tables : List Table) : List String :=
  tables.foldl (fun acc t => if t.PKey = none then acc ++ [t.Name] else acc) []

/-- Embedding of `checkPKeys` (`core/boilingcore.go`): after accumulating
all tables lacking a primary key, fail with the validation error naming
them all if any exist, otherwise succeed. -/
def checkPKeys (tables : List Table) : Except Err Unit :=
  let missingPkey := missingPkeyTables tables
  if missingPkey.length ≠ 0 then
    .error (.validationError missingPkey)
  else
    .ok ()

/-- Embedding of `(*State).initTables` (`core/boilingcore.go`). The call
`db.Tables(driver, schema, whitelist, blacklist)` is code outside `src/`
(the schema assembler), so its outcome is taken as the oracle argument
`tablesResult`; `initTables` wraps its failure, then rejects an empty
table list, then runs the primary-key validation pass, and on success
leaves the table sequence exactly as fetched. -/
def initTables (tablesResult : Except String (List Table)) :
    Except Err (List Table) :=
  match tablesResult with
  | .error e => .error (.queryError e)
  | .ok tables =>
    if tables.length = 0 then
      .error .schemaError
    else
      match checkPKeys tables with
      | .error e => .error e
      | .ok () => .ok tables

/-- Embedding of `(*MySQLDriver).TableNames` (`db/drivers/mysql.go`).
The driver issues
`select table_name from information_schema.tables where table_schema = ?
and table_type = 'BASE TABLE'`, appending `and table_name in (whitelist)`
when the whitelist is non-empty, else `and table_name not in (blacklist)`
when the blacklist is non-empty. `baseTables` models the catalog's base
tables of the schema in reported order; the `in` / `not in` clauses are
the corresponding filters. -/
def TableNames (baseTables whitelist blacklist : List String) : List String :=
  if whitelist.length > 0 then
    baseTables.filter (fun t => t ∈ whitelist)
  else if blacklist.length > 0 then
    baseTables.filter (fun t => t ∉ blacklist)
  else
    baseTables

/-- An opaque handle standing for a successfully constructed `*sql.DB`. -/
structure DBHandle where
  id : Nat
  deriving Repr, DecidableEq

/-- Embedding of `MySQLDriver` (`db/drivers/mysql.go`): the connection
string and the connection handle. `dbConn = none` models the nil Go
pointer. -/
structure MySQLDriver where
  connStr : String
  dbConn : Option DBHandle
  deriving Repr, DecidableEq

/-- Embedding of `NewMySQLDriver`: the connection string is built by the
external `mysql.Config.FormatDSN` (not modelled); a fresh driver's
`dbConn` is the Go zero value nil. -/
def NewMySQLDriver (connStr : String) : MySQLDriver :=
  { connStr := connStr, dbConn := none }

/-- Embedding of `(*MySQLDriver).Open`: `m.dbConn, err = sql.Open(...)`.
The external `sql.Open` outcome is the oracle `sqlOpenResult`; on failure
`sql.Open` returns a nil handle alongside the error, so `dbConn` is set
to `none` and the error is returned; on success the handle is stored. -/
def MySQLDriver.Open (m : MySQLDriver) (sqlOpenResult : Except String DBHandle) :
    MySQLDriver × Option String :=
  match sqlOpenResult with
  | .error e => ({ m with dbConn := none }, some e)
  | .ok h => ({ m with dbConn := some h }, none)

/-- Outcome of calling `Close` on the driver. -/
inductive CloseResult where
  | closed
  | nilPanic
  deriving Repr, DecidableEq

/-- Embedding of `(*MySQLDriver).Close`: the body is `m.dbConn.Close()`.
When `dbConn` is the nil pointer, `(*sql.DB).Close` dereferences its
receiver (`db.mu.Lock()`) and the call panics; this is `nilPanic`.
Otherwise the connection is released. -/
def MySQLDriver.Close (m : MySQLDriver) : CloseResult :=
  match m.dbConn with
  | none => .nilPanic
  | some _ => .closed

/-- Oracle inputs for one `(*State).Run` (`core/boilingcore.go`): the
outcome of `s.Driver.Open()` and the outcome of the `db.Tables`
introspection (meaningful only when the open succeeded). -/
structure RunEnv where
  openResult : Option String
  tablesResult : Except String (List Table)

/-- Observable trace of a run: whether table discovery (the driver's
`TableNames` query inside `db.Tables`) was ever reached, and which tables
the render loop emitted files for. -/
structure RunTrace where
  tableNamesAttempted : Bool
  rendered : List String
  deriving Repr, DecidableEq

/-- Embedding of the control flow of `(*State).Run`
(`core/boilingcore.go`): connect via `Driver.Open` (abort, wrapped, on
failure, before any introspection); `initTables` (table discovery,
zero-table check, primary-key validation); then the render loop over the
tables, skipping join tables. The debug dump, output-folder creation and
the renderer calls themselves do not bear on the traced properties and
are elided; `rendered` records the tables the loop hands to the
renderer. -/
def Run (env : RunEnv) : Except Err Unit × RunTrace :=
  match env.openResult with
  | some e =>
      (.error (.connectionError e),
       { tableNamesAttempted := false, rendered := [] })
  | none =>
    match initTables env.tablesResult with
    | .error e =>
        (.error e, { tableNamesAttempted := true, rendered := [] })
    | .ok tables =>
        (.ok (),
         { tableNamesAttempted := true,
           rendered := (tables.filter (fun t => !t.IsJoinTable)).map Table.Name })

/-- A file of the output tree: its path and whether its mode grants the
owning process write permission. -/
structure FSFile where
  path : String
  writable : Bool
  deriving Repr, DecidableEq

/-- The output file system: the files that exist, unique by path. -/
abbrev FS : Type := List FSFile

/-- The path `(*State).openFile` opens:
`filepath.Join(outFolder, filename, filename+suffix)`. -/
def outFilePath (outFolder filename suffix : String) : String :=
  outFolder ++ "/" ++ filename ++ "/" ++ filename ++ suffix

/-- Embedding of the `os.OpenFile(path, O_WRONLY|O_CREATE, 0444)` call in
`(*State).openFile` (`core/boilingcore.go`), for a non-root process.
`O_CREATE` without `O_EXCL`: a missing file is created — with mode 0444,
so no write bits — and an existing file is simply opened for writing,
which succeeds exactly when its mode grants the process write permission
(`EACCES` otherwise). The `MkdirAll` for the parent directory is elided. -/
def openFile (fs : FS) (path : String) : Except String FS :=
  match List.find? (fun f => f.path = path) fs with
  | some f => if f.writable then .ok fs else .error "permission denied"
  | none => .ok (fs ++ [{ path := path, writable := false }])

/-- Embedding of `(*State).initOutFolder`: when the wipe option is set,
`os.RemoveAll` deletes every file under the output root before the root
is recreated; otherwise the files are kept. -/
def initOutFolder (wipe : Bool) (outFolder : String) (fs : FS) : FS :=
  if wipe then
    List.filter (fun f => !(String.isPrefixOf (outFolder ++ "/") f.path)) fs
  else
    fs

/-- The accumulation loop of `checkPKeys` collects exactly the names of
the tables without a primary key, in table order. -/
theorem missingPkeyTables_eq (tables : List Table) :
    missingPkeyTables tables =
      (tables.filter (fun t => t.PKey = none)).map Table.Name := by
  have h : ∀ (ts : List Table) (acc : List String),
      ts.foldl (fun acc t => if t.PKey = none then acc ++ [t.Name] else acc) acc =
        acc ++ (ts.filter (fun t => t.PKey = none)).map Table.Name := by
    intro ts
    induction ts with
    | nil => intro acc; simp
    | cons t ts ih =>
      intro acc
      by_cases hp : t.PKey = none
      · simp [hp, ih]
      · simp [hp, ih]
  simpa [missingPkeyTables] using h tables []

/-- C1: the primary-key validation pass succeeds exactly when every table
has a primary key; when it fails, the validation error names every table
lacking one (all offenders, in table order); and on success `initTables`
returns the table sequence unchanged. -/
theorem checkPKeys_collects_all_missing (tables : List Table) :
    (checkPKeys tables = .ok () ↔ ∀ t ∈ tables, t.PKey ≠ none) ∧
    ((∃ t ∈ tables, t.PKey = none) →
      checkPKeys tables =
        .error (.validationError
          ((tables.filter (fun t => t.PKey = none)).map Table.Name))) ∧
    (tables ≠ [] → (∀ t ∈ tables, t.PKey ≠ none) →
      initTables (.ok tables) = .ok tables) := by
  have hmk := missingPkeyTables_eq tables
  have hfilter_iff : tables.filter (fun t => t.PKey = none) = [] ↔
      ∀ t ∈ tables, t.PKey ≠ none := by
    simp [List.filter_eq_nil_iff]
  have hok : checkPKeys tables = .ok () ↔ ∀ t ∈ tables, t.PKey ≠ none := by
    by_cases hall : ∀ t ∈ tables, t.PKey ≠ none
    · have hnil : tables.filter (fun t => t.PKey = none) = [] := hfilter_iff.mpr hall
      constructor
      · intro _
        exact hall
      · intro _
        rw [checkPKeys]
        simp [hmk, hnil]
    · have hne : tables.filter (fun t => t.PKey = none) ≠ [] := fun hc =>
        hall (hfilter_iff.mp hc)
      have hlen : ((tables.filter (fun t => t.PKey = none)).map Table.Name).length ≠ 0 := by
        simpa [List.length_eq_zero, List.map_eq_nil_iff] using hne
      constructor
      · intro h
        rw [checkPKeys] at h
        simp only [hmk] at h
        rw [if_pos hlen] at h
        exact absurd h (by simp)
      · intro h
        exact absurd h hall
  refine ⟨hok, ?_, ?_⟩
  · rintro ⟨t, ht, hp⟩
    have hne : tables.filter (fun t => t.PKey = none) ≠ [] := by
      intro hnil
      exact hfilter_iff.mp hnil t ht hp
    have hlen : ((tables.filter (fun t => t.PKey = none)).map Table.Name).length ≠ 0 := by
      simpa [List.length_eq_zero, List.map_eq_nil_iff] using hne
    rw [checkPKeys]
    simp only [hmk]
    rw [if_pos hlen]
  · intro hne hall
    have h1 : checkPKeys tables = .ok () := hok.mpr hall
    have h2 : ¬tables.length = 0 := by
      simpa [List.length_eq_zero] using hne
    simp [initTables, h2, h1]

/-- C1 witness: a schema where the second and third tables lack a primary
key fails naming exactly those two, and a fully keyed schema passes
unchanged through `initTables`. -/
theorem checkPKeys_collects_all_missing_witness :
    checkPKeys
        [{ Name := "users", Columns := [], PKey := some { Name := "PRIMARY", Columns := ["id"] },
           FKeys := [], IsJoinTable := false },
         { Name := "logs", Columns := [], PKey := none, FKeys := [], IsJoinTable := false },
         { Name := "notes", Columns := [], PKey := none, FKeys := [], IsJoinTable := false }] =
      .error (.validationError ["logs", "notes"]) ∧
    initTables (.ok
        [{ Name := "users", Columns := [], PKey := some { Name := "PRIMARY", Columns := ["id"] },
           FKeys := [], IsJoinTable := false }]) =
      .ok [{ Name := "users", Columns := [], PKey := some { Name := "PRIMARY", Columns := ["id"] },
             FKeys := [], IsJoinTable := false }] := by
  constructor
  · have h := (checkPKeys_collects_all_missing
      [{ Name := "users", Columns := [], PKey := some { Name := "PRIMARY", Columns := ["id"] },
         FKeys := [], IsJoinTable := false },
       { Name := "logs", Columns := [], PKey := none, FKeys := [], IsJoinTable := false },
       { Name := "notes", Columns := [], PKey := none, FKeys := [], IsJoinTable := false }]).2.1
      ⟨{ Name := "logs", Columns := [], PKey := none, FKeys := [], IsJoinTable := false },
        by simp, rfl⟩
    simpa using h
  · exact (checkPKeys_collects_all_missing
      [{ Name := "users", Columns := [], PKey := some { Name := "PRIMARY", Columns := ["id"] },
         FKeys := [], IsJoinTable := false }]).2.2 (by simp) (by simp)

/-- C2: a run whose table discovery yields zero tables fails with the
schema error (not a validation error), and no table is ever handed to the
renderer. -/
theorem zero_tables_schema_error (env : RunEnv)
    (hopen : env.openResult = none) (htab : env.tablesResult = .ok []) :
    initTables (.ok ([] : List Table)) = .error .schemaError ∧
    (Run env).1 = .error .schemaError ∧
    (Run env).2.rendered = [] := by
  refine ⟨by simp [initTables], ?_, ?_⟩ <;>
    simp [Run, hopen, htab, initTables]

/-- C2 witness: a concrete environment with a successful open and an empty
discovery result. -/
theorem zero_tables_schema_error_witness :
    (Run { openResult := none, tablesResult := .ok [] }).1 = .error .schemaError ∧
    (Run { openResult := none, tablesResult := .ok [] }).2.rendered = [] := by
  have h := zero_tables_schema_error
    { openResult := none, tablesResult := .ok [] } rfl rfl
  exact ⟨h.2.1, h.2.2⟩

/-- C3: with a non-empty allowlist, `TableNames` returns exactly the base
tables that are in the allowlist (so a subset of allowlist ∩ base tables,
never a name outside the allowlist) and the denylist is ignored; with an
empty allowlist and non-empty denylist it returns the base tables minus
the denylist; with both empty it returns all base tables. -/
theorem TableNames_filtering (base wl bl : List String) :
    (wl ≠ [] →
      TableNames base wl bl = base.filter (fun t => t ∈ wl) ∧
      TableNames base wl bl = TableNames base wl [] ∧
      ∀ n ∈ TableNames base wl bl, n ∈ wl ∧ n ∈ base) ∧
    (wl = [] → bl ≠ [] →
      TableNames base wl bl = base.filter (fun t => t ∉ bl)) ∧
    (wl = [] → bl = [] → TableNames base wl bl = base) := by
  refine ⟨?_, ?_, ?_⟩
  · intro hwl
    have hlen : wl.length > 0 := List.length_pos.mpr hwl
    refine ⟨by simp [TableNames, hlen], by simp [TableNames, hlen], ?_⟩
    intro n hn
    simp only [TableNames, hlen, if_pos] at hn
    have := List.mem_filter.mp hn
    exact ⟨by simpa using this.2, this.1⟩
  · intro hwl hbl
    have hlen : bl.length > 0 := List.length_pos.mpr hbl
    simp [TableNames, hwl, hlen]
  · intro hwl hbl
    simp [TableNames, hwl, hbl]

/-- C3 witness: a three-table catalog under an allowlist (denylist
present but ignored), a denylist alone, and no lists. -/
theorem TableNames_filtering_witness :
    TableNames ["users", "logs", "notes"] ["users", "ghosts"] ["logs"] = ["users"] ∧
    TableNames ["users", "logs", "notes"] [] ["logs"] = ["users", "notes"] ∧
    TableNames ["users", "logs", "notes"] [] [] = ["users", "logs", "notes"] := by
  refine ⟨?_, ?_, ?_⟩
  · have h := (TableNames_filtering ["users", "logs", "notes"]
      ["users", "ghosts"] ["logs"]).1 (by simp)
    rw [h.1]
    decide
  · have h := (TableNames_filtering ["users", "logs", "notes"] [] ["logs"]).2.1
      rfl (by simp)
    rw [h]
    decide
  · exact (TableNames_filtering ["users", "logs", "notes"] [] []).2.2 rfl rfl

/-- A predicate-transport helper: an `ite` of string literals avoids a
value both branches avoid. -/
theorem ite_ne_lit {cnd : Prop} [Decidable cnd] {a b e : String}
    (ha : a ≠ e) (hb : b ≠ e) : (if cnd then a else b) ≠ e := by
  by_cases h : cnd <;> simp [h, ha, hb]

/-- C4: the type translation is total — every column receives a
non-empty semantic type name — and every bare dialect type outside the
recognized set falls through to the text semantic type (`null.String`
with the nullable-wrapper package when the column is nullable, Go
`string` otherwise). -/
theorem translate_total_and_text_fallback (b : Bool) (c : Column) :
    (TranslateColumnType b c).TypeName ≠ "" ∧
    (c.DBType ∉ recognizedDBTypes →
      (TranslateColumnType b c).TypeName =
        (if c.Nullable then "String" else "string") ∧
      (c.Nullable = true → (TranslateColumnType b c).PkgName = nullPkg)) := by
  constructor
  · rw [TranslateColumnType]
    simp only [apply_ite Column.TypeName]
    repeat' apply ite_ne_lit
    all_goals decide
  · intro hun
    simp only [recognizedDBTypes, List.mem_cons, List.not_mem_nil, or_false,
      not_or] at hun
    obtain ⟨h1, h2, h3, h4, h5, h6, h7, h8, h9, h10, h11, h12, h13, h14, h15,
      h16, h17, h18, h19, h20, h21, h22, h23⟩ := hun
    constructor
    · rw [TranslateColumnType]
      simp only [apply_ite Column.TypeName]
      by_cases hn : c.Nullable = true <;>
        simp only [hn, h1, h2, h3, h4, h5, h6, h7, h8, h9, h10, h11, h12, h13,
          h14, h15, h16, h17, h18, h19, h20, h21, h22, h23, if_true, if_false,
          ite_true, ite_false, or_self, not_false_eq_true, Bool.false_eq_true,
          eq_self_iff_true]
    · intro hn
      rw [TranslateColumnType]
      simp only [apply_ite Column.PkgName]
      simp only [hn, h1, h2, h3, h4, h5, h6, h7, h8, h9, h10, h11, h12, h13,
        h14, h15, h16, h17, h18, h19, h20, h21, h22, h23, if_true, if_false,
        ite_true, ite_false, or_self, not_false_eq_true, eq_self_iff_true]

/-- C4 witness: an unrecognized dialect type (`varchar`) translates to
`string` when non-nullable and to the nullable `String` wrapper when
nullable. -/
theorem translate_total_and_text_fallback_witness :
    (TranslateColumnType false
      { Name := "title", FullDBType := "varchar(255)", DBType := "varchar",
        Nullable := false, Unsigned := false, Unique := false }).TypeName = "string" ∧
    (TranslateColumnType false
      { Name := "bio", FullDBType := "varchar(255)", DBType := "varchar",
        Nullable := true, Unsigned := false, Unique := false }).TypeName = "String" ∧
    (TranslateColumnType false
      { Name := "bio", FullDBType := "varchar(255)", DBType := "varchar",
        Nullable := true, Unsigned := false, Unique := false }).PkgName = nullPkg := by
  refine ⟨?_, ?_, ?_⟩
  · have h := (translate_total_and_text_fallback false
      { Name := "title", FullDBType := "varchar(255)", DBType := "varchar",
        Nullable := false, Unsigned := false, Unique := false }).2 (by decide)
    simpa using h.1
  · have h := (translate_total_and_text_fallback false
      { Name := "bio", FullDBType := "varchar(255)", DBType := "varchar",
        Nullable := true, Unsigned := false, Unique := false }).2 (by decide)
    simpa using h.1
  · have h := (translate_total_and_text_fallback false
      { Name := "bio", FullDBType := "varchar(255)", DBType := "varchar",
        Nullable := true, Unsigned := false, Unique := false }).2 (by decide)
    exact h.2 rfl

/-- C5 counterexample: with the boolean-encoding switch on, a `tinyint`
column whose full type is `tinyint(1)` translates to `bool`, not to an
8-bit integer type — so "tinyint maps to 8-bit" does not hold for every
integer-typed column. -/
theorem tinyint_width_counterexample :
    (TranslateColumnType true
      { Name := "flag", FullDBType := "tinyint(1)", DBType := "tinyint",
        Nullable := false, Unsigned := false, Unique := false }).TypeName = "bool" ∧
    (TranslateColumnType true
      { Name := "flag", FullDBType := "tinyint(1)", DBType := "tinyint",
        Nullable := false, Unsigned := false, Unique := false }).TypeName ≠ "int8" ∧
    (TranslateColumnType true
      { Name := "flag", FullDBType := "tinyint(1)", DBType := "tinyint",
        Nullable := false, Unsigned := false, Unique := false }).TypeName ≠ "uint8" := by
  refine ⟨?_, ?_, ?_⟩ <;> decide

/-- Outside the boolean-encoding quirk case, a `tinyint` column maps to
the 8-bit integer semantic type selected by nullability and
signedness. -/
theorem translate_tinyint_not_quirk (b : Bool) (c : Column)
    (hq : ¬(b = true ∧ c.FullDBType = "tinyint(1)")) (hd : c.DBType = "tinyint") :
    (TranslateColumnType b c).TypeName =
      (if c.Nullable then (if c.Unsigned then "Uint8" else "Int8")
       else (if c.Unsigned then "uint8" else "int8")) := by
  rw [TranslateColumnType]
  simp only [apply_ite Column.TypeName]
  rw [hd]
  by_cases hn : c.Nullable = true <;> by_cases hu : c.Unsigned = true <;>
    simp [hn, hu, hq]

/-- C5 (amended): outside the boolean-encoding quirk case (switch on and
full type `tinyint(1)`), integer types map by declared width and
signedness to the narrowest semantic integer type — tinyint to 8-bit,
smallint to 16-bit, mediumint to 32-bit, bigint to 64-bit — unsigned
variant exactly when the unsigned flag is set, with the nullable wrapper
package when nullable. -/
theorem integer_width_mapping (b : Bool) (c : Column)
    (hq : ¬(b = true ∧ c.FullDBType = "tinyint(1)")) :
    (c.DBType = "tinyint" →
      (TranslateColumnType b c).TypeName =
        (if c.Nullable then (if c.Unsigned then "Uint8" else "Int8")
         else (if c.Unsigned then "uint8" else "int8"))) ∧
    (c.DBType = "smallint" →
      (TranslateColumnType b c).TypeName =
        (if c.Nullable then (if c.Unsigned then "Uint16" else "Int16")
         else (if c.Unsigned then "uint16" else "int16"))) ∧
    (c.DBType = "mediumint" →
      (TranslateColumnType b c).TypeName =
        (if c.Nullable then (if c.Unsigned then "Uint32" else "Int32")
         else (if c.Unsigned then "uint32" else "int32"))) ∧
    (c.DBType = "bigint" →
      (TranslateColumnType b c).TypeName =
        (if c.Nullable then (if c.Unsigned then "Uint64" else "Int64")
         else (if c.Unsigned then "uint64" else "int64"))) ∧
    (c.Nullable = true →
      c.DBType = "tinyint" ∨ c.DBType = "smallint" ∨ c.DBType = "mediumint" ∨
        c.DBType = "bigint" →
      (TranslateColumnType b c).PkgName = nullPkg) := by
  refine ⟨?_, ?_, ?_, ?_, ?_⟩
  · intro hd
    rw [TranslateColumnType]
    simp only [apply_ite Column.TypeName]
    rw [hd]
    by_cases hn : c.Nullable = true <;> by_cases hu : c.Unsigned = true <;>
      simp [hn, hu, hq]
  · intro hd
    rw [TranslateColumnType]
    simp only [apply_ite Column.TypeName]
    rw [hd]
    by_cases hn : c.Nullable = true <;> by_cases hu : c.Unsigned = true <;>
      simp [hn, hu]
  · intro hd
    rw [TranslateColumnType]
    simp only [apply_ite Column.TypeName]
    rw [hd]
    by_cases hn : c.Nullable = true <;> by_cases hu : c.Unsigned = true <;>
      simp [hn, hu]
  · intro hd
    rw [TranslateColumnType]
    simp only [apply_ite Column.TypeName]
    rw [hd]
    by_cases hn : c.Nullable = true <;> by_cases hu : c.Unsigned = true <;>
      simp [hn, hu]
  · intro hn hd
    rw [TranslateColumnType]
    simp only [apply_ite Column.PkgName]
    rcases hd with hd | hd | hd | hd <;> rw [hd] <;> simp [hn]

/-- C5 witness: an unsigned nullable smallint maps to the nullable
unsigned 16-bit wrapper (never widened), and an unsigned non-nullable
tinyint of width other than 1 maps to `uint8`. -/
theorem integer_width_mapping_witness :
    (TranslateColumnType true
      { Name := "count", FullDBType := "smallint(5) unsigned", DBType := "smallint",
        Nullable := true, Unsigned := true, Unique := false }).TypeName = "Uint16" ∧
    (TranslateColumnType true
      { Name := "count", FullDBType := "smallint(5) unsigned", DBType := "smallint",
        Nullable := true, Unsigned := true, Unique := false }).PkgName = nullPkg ∧
    (TranslateColumnType true
      { Name := "age", FullDBType := "tinyint(4) unsigned", DBType := "tinyint",
        Nullable := false, Unsigned := true, Unique := false }).TypeName = "uint8" := by
  refine ⟨?_, ?_, ?_⟩
  · have h := (integer_width_mapping true
      { Name := "count", FullDBType := "smallint(5) unsigned", DBType := "smallint",
        Nullable := true, Unsigned := true, Unique := false } (by decide)).2.1 rfl
    simpa using h
  · exact (integer_width_mapping true
      { Name := "count", FullDBType := "smallint(5) unsigned", DBType := "smallint",
        Nullable := true, Unsigned := true, Unique := false } (by decide)).2.2.2.2
      rfl (Or.inr (Or.inl rfl))
  · have h := (integer_width_mapping true
      { Name := "age", FullDBType := "tinyint(4) unsigned", DBType := "tinyint",
        Nullable := false, Unsigned := true, Unique := false } (by decide)).1 rfl
    simpa using h

/-- C6: with the run-global switch on, a `tinyint` column of full type
`tinyint(1)` translates to the boolean semantic type (nullable wrapper
when nullable); with the switch off, or for a tinyint of any other full
type, it translates to the 8-bit integer semantic type. The switch is a
single value for the whole translation, not a per-column datum. -/
theorem tinyint_as_bool_switch (b : Bool) (c : Column) :
    (b = true → c.DBType = "tinyint" → c.FullDBType = "tinyint(1)" →
      (TranslateColumnType b c).TypeName = (if c.Nullable then "Bool" else "bool") ∧
      (c.Nullable = true → (TranslateColumnType b c).PkgName = nullPkg)) ∧
    (c.DBType = "tinyint" → (b = false ∨ c.FullDBType ≠ "tinyint(1)") →
      (TranslateColumnType b c).TypeName =
        (if c.Nullable then (if c.Unsigned then "Uint8" else "Int8")
         else (if c.Unsigned then "uint8" else "int8"))) := by
  constructor
  · intro hb hd hf
    constructor
    · rw [TranslateColumnType]
      simp only [apply_ite Column.TypeName]
      rw [hd]
      by_cases hn : c.Nullable = true <;> simp [hn, hb, hf]
    · intro hn
      rw [TranslateColumnType]
      simp only [apply_ite Column.PkgName]
      rw [hd]
      simp [hn]
  · intro hd hq
    have hq' : ¬(b = true ∧ c.FullDBType = "tinyint(1)") := by
      rcases hq with hq | hq
      · simp [hq]
      · simp [hq]
    exact translate_tinyint_not_quirk b c hq' hd

/-- C6 witness: a non-nullable `tinyint(1)` is `bool` with the switch on
and `int8` with it off; a `tinyint(4)` stays `int8` even with the switch
on; a nullable `tinyint(1)` with the switch on is the nullable `Bool`
wrapper. -/
theorem tinyint_as_bool_switch_witness :
    (TranslateColumnType true
      { Name := "flag", FullDBType := "tinyint(1)", DBType := "tinyint",
        Nullable := false, Unsigned := false, Unique := false }).TypeName = "bool" ∧
    (TranslateColumnType false
      { Name := "flag", FullDBType := "tinyint(1)", DBType := "tinyint",
        Nullable := false, Unsigned := false, Unique := false }).TypeName = "int8" ∧
    (TranslateColumnType true
      { Name := "age", FullDBType := "tinyint(4)", DBType := "tinyint",
        Nullable := false, Unsigned := false, Unique := false }).TypeName = "int8" ∧
    (TranslateColumnType true
      { Name := "flag", FullDBType := "tinyint(1)", DBType := "tinyint",
        Nullable := true, Unsigned := false, Unique := false }).PkgName = nullPkg := by
  refine ⟨?_, ?_, ?_, ?_⟩
  · have h := (tinyint_as_bool_switch true
      { Name := "flag", FullDBType := "tinyint(1)", DBType := "tinyint",
        Nullable := false, Unsigned := false, Unique := false }).1 rfl rfl rfl
    simpa using h.1
  · have h := (tinyint_as_bool_switch false
      { Name := "flag", FullDBType := "tinyint(1)", DBType := "tinyint",
        Nullable := false, Unsigned := false, Unique := false }).2 rfl (Or.inl rfl)
    simpa using h
  · have h := (tinyint_as_bool_switch true
      { Name := "age", FullDBType := "tinyint(4)", DBType := "tinyint",
        Nullable := false, Unsigned := false, Unique := false }).2 rfl
      (Or.inr (by decide))
    simpa using h
  · exact ((tinyint_as_bool_switch true
      { Name := "flag", FullDBType := "tinyint(1)", DBType := "tinyint",
        Nullable := true, Unsigned := false, Unique := false }).1 rfl rfl rfl).2 rfl

/-- C10: the translator only assigns the semantic type fields `TypeName`
and `PkgName`; every other column field — name, full dialect type, bare
dialect type, nullability, unsigned flag, uniqueness flag, default
value — is returned unchanged. -/
theorem translate_frame (b : Bool) (c : Column) :
    (TranslateColumnType b c).Name = c.Name ∧
    (TranslateColumnType b c).FullDBType = c.FullDBType ∧
    (TranslateColumnType b c).DBType = c.DBType ∧
    (TranslateColumnType b c).Nullable = c.Nullable ∧
    (TranslateColumnType b c).Unsigned = c.Unsigned ∧
    (TranslateColumnType b c).Unique = c.Unique ∧
    (TranslateColumnType b c).Default = c.Default := by
  refine ⟨?_, ?_, ?_, ?_, ?_, ?_, ?_⟩ <;> rw [TranslateColumnType] <;>
    simp only [apply_ite Column.Name, apply_ite Column.FullDBType,
      apply_ite Column.DBType, apply_ite Column.Nullable,
      apply_ite Column.Unsigned, apply_ite Column.Unique,
      apply_ite Column.Default, ite_self]

/-- C7: a failed connection acquisition is propagated by `Open` (leaving
a nil handle), and a run whose `Driver.Open` fails aborts with the
wrapped connection error before table discovery is ever attempted. -/
theorem open_failure_aborts_run (m : MySQLDriver) (e : String) (env : RunEnv)
    (henv : env.openResult = some e) :
    (m.Open (.error e)).2 = some e ∧
    (m.Open (.error e)).1.dbConn = none ∧
    (Run env).1 = .error (.connectionError e) ∧
    (Run env).2.tableNamesAttempted = false := by
  refine ⟨rfl, rfl, ?_, ?_⟩ <;> simp [Run, henv]

/-- C7 witness: a concrete driver whose underlying `sql.Open` is refused,
in a run environment carrying that failure. -/
theorem open_failure_aborts_run_witness :
    ((NewMySQLDriver "user:pass@tcp(db:3306)/app").Open
        (.error "connection refused")).2 = some "connection refused" ∧
    (Run { openResult := some "connection refused",
           tablesResult := .ok [] }).2.tableNamesAttempted = false := by
  have h := open_failure_aborts_run (NewMySQLDriver "user:pass@tcp(db:3306)/app")
    "connection refused"
    { openResult := some "connection refused", tablesResult := .ok [] } rfl
  exact ⟨h.1, h.2.2.2⟩

/-- C8: calling `Close` on a driver whose `Open` was called but failed
dereferences the nil `dbConn` handle inside `(*sql.DB).Close` and
panics — the code faults exactly where the spec promises safety. -/
theorem close_after_failed_open_panics :
    ((NewMySQLDriver "user@tcp(db:3306)/app?tls=required").Open
        (.error "invalid value / unknown config name: required")).1.Close =
      .nilPanic := rfl

/-- `List.find?` skips a prefix in which nothing matches. -/
theorem find?_append_of_none {α : Type} (p : α → Bool) (l1 l2 : List α)
    (h : l1.find? p = none) : (l1 ++ l2).find? p = l2.find? p := by
  induction l1 with
  | nil => simp
  | cons x xs ih =>
    rw [List.cons_append]
    cases hp : p x with
    | true => simp [List.find?, hp] at h
    | false =>
      simp only [List.find?, hp] at h ⊢
      exact ih h

/-- C9 counterexample: when a file of the target name already exists and
is writable by the process, `openFile` succeeds instead of failing —
`O_CREATE` without `O_EXCL` opens the existing file for writing. -/
theorem openFile_overwrites_existing_writable :
    openFile [{ path := "models/users/users_gen.go", writable := true }]
        "models/users/users_gen.go" =
      .ok [{ path := "models/users/users_gen.go", writable := true }] := by
  rfl

/-- C9 (amended): a file created by `openFile` carries no write bits
(mode 0444), so re-creating a file of the same name in the table's
output directory fails with a permission error — a generated file is
never overwritten, although a pre-existing process-writable file of the
same name would be. -/
theorem openFile_write_once (fs fs' : FS) (outFolder name suffix : String)
    (hnew : fs.find? (fun f => f.path = outFilePath outFolder name suffix) = none)
    (hok : openFile fs (outFilePath outFolder name suffix) = .ok fs') :
    fs' = fs ++ [{ path := outFilePath outFolder name suffix, writable := false }] ∧
    openFile fs' (outFilePath outFolder name suffix) =
      .error "permission denied" := by
  rw [openFile, hnew] at hok
  cases hok
  refine ⟨rfl, ?_⟩
  rw [openFile, find?_append_of_none _ _ _ hnew]
  simp [List.find?]

/-- C9 witness: creating `models/users/users_gen.go` on a fresh output
tree succeeds read-only, and a second creation attempt fails. -/
theorem openFile_write_once_witness :
    openFile [] (outFilePath "models" "users" "_gen.go") =
      .ok [{ path := outFilePath "models" "users" "_gen.go", writable := false }] ∧
    openFile [{ path := outFilePath "models" "users" "_gen.go", writable := false }]
        (outFilePath "models" "users" "_gen.go") = .error "permission denied" := by
  have h := openFile_write_once []
    [{ path := outFilePath "models" "users" "_gen.go", writable := false }]
    "models" "users" "_gen.go" rfl rfl
  exact ⟨by rfl, h.2⟩

end SqlBoiler
